import Mathlib

/-!
Verification of the spell lifecycle manager (`sorcerer/src/spell_builtins.rs`).

Shallow embedding: peer identities and spell/service identifiers are `Nat`;
the mutable node state (spell registry, live service instances, trigger
subscriptions, per-spell persisted fields) is an explicit `SpellState`
threaded through each operation; the outcomes of the external collaborators
(service creation/removal, bounded service calls, the event-bus
subscribe/unsubscribe) are given by an `Env` oracle so that every failure
path of the source is reachable.  Errors are modelled structurally, one
constructor per distinct error site of the source.
-/

namespace SpellBuiltins

/-- A single user-supplied trigger specification: a periodic clock trigger
(period with optional start/end bounds) or a subscription to a named
system event. -/
inductive TriggerSpec where
  | clock (period : Nat) (startAt : Option Nat) (endAt : Option Nat)
  | event (name : String)
deriving DecidableEq, Repr

/-- The user-facing trigger configuration (`TriggerConfig` DTO): a list of
trigger specifications, possibly empty. -/
structure TriggerConfig where
  triggers : List TriggerSpec
deriving DecidableEq, Repr

/-- The validated/normalized trigger configuration
(`SpellTriggerConfigs` produced by `api::from_user_config`). -/
structure ResolvedTriggerConfig where
  triggers : List TriggerSpec
deriving DecidableEq, Repr

/-- Errors, one constructor per distinct error site of
`spell_builtins.rs`.  `callError` corresponds to `process_func_outcome`
wrapping a failed service call with the spell id and the called function's
name. -/
inductive SpellError where
  | validationError
  | rootScopePermissionError
  | installPermissionError (worker creator caller : Nat)
  | removePermissionError (worker creator caller : Nat)
  | updatePermissionError (worker creator caller : Nat)
  | unknownWorker (worker : Nat)
  | createServiceError
  | callError (spellId : Nat) (op : String)
  | installSubscribeError (spellId : Nat)
  | removeUnsubscribeError (spellId : Nat)
  | updateTriggersError (spellId : Nat)
  | removeServiceError (spellId : Nat)
  | serviceNotFound (aliasId : Nat)
deriving DecidableEq, Repr

/-- The error kinds the spec's taxonomy classifies as `PermissionError`:
the root-scope rejection and the three role-check rejections. -/
def SpellError.isPermissionError : SpellError → Bool
  | .rootScopePermissionError => true
  | .installPermissionError _ _ _ => true
  | .removePermissionError _ _ _ => true
  | .updatePermissionError _ _ _ => true
  | _ => false

/-- Whether a lifecycle result is a `PermissionError` failure. -/
def isPermissionFailure {α : Type} : Except SpellError α → Bool
  | .error e => e.isPermissionError
  | .ok _ => false

/-- Modelled from the spec: `api::from_user_config` lives in
`spell_event_bus::api`, which is not part of the provided sources.  Per the
spec it normalizes the user trigger config to a `ResolvedTriggerConfig` or
to absence ("no active triggers", represented as absence, not an empty
list), and a malformed config aborts with `ValidationError`.  A clock
trigger whose end bound precedes its start bound is taken as the malformed
case. -/
def triggerSpecValid : TriggerSpec → Bool
  | .clock _ (some s) (some e) => s ≤ e
  | _ => true

/-- Modelled from the spec: normalization of the user trigger config
(`api::from_user_config`).  Returns `none` for a config with no active
triggers, `some` for a present resolved set, and `ValidationError` for a
malformed config. -/
def from_user_config (c : TriggerConfig) : Except SpellError (Option ResolvedTriggerConfig) :=
  if c.triggers.all triggerSpecValid then
    if c.triggers.isEmpty then Except.ok none
    else Except.ok (some ⟨c.triggers⟩)
  else Except.error SpellError.validationError

/-- The `KeyManager`: the single distinguished management identity, the
node's host/root identity, and the creator lookup for workers
(`get_worker_creator`, `none` when the worker is unknown). -/
structure KeyManager where
  management : Nat
  host : Nat
  worker_creator : Nat → Option Nat

/-- `key_manager.is_management`. -/
def KeyManager.is_management (km : KeyManager) (p : Nat) : Bool :=
  p == km.management

/-- `key_manager.is_host`. -/
def KeyManager.is_host (km : KeyManager) (p : Nat) : Bool :=
  p == km.host

/-- Outcomes of the external collaborators for this run: whether
`create_service` succeeds, whether a bounded `call_function` against a
given spell for a given function name succeeds, whether the event bus
subscribe/unsubscribe succeed for a given spell id, whether
`remove_service` succeeds, and the alias resolution `to_service_id`. -/
structure Env where
  create_ok : Bool
  call_ok : Nat → String → Bool
  subscribe_ok : Nat → Bool
  unsubscribe_ok : Nat → Bool
  remove_service_ok : Nat → Bool
  to_service_id : Nat → Option Nat

/-- Node state: `registry` is the spell-storage mapping as (worker, spell)
pairs; `services` the live service instances as (service id, owner) pairs;
`subscribed` the spell ids with a live event-bus subscription; `scripts`,
`kvData`, `configs` the per-spell persisted fields written through
service calls; `nextId` feeds `create_service` with fresh ids. -/
structure SpellState where
  registry : List (Nat × Nat)
  services : List (Nat × Nat)
  subscribed : List Nat
  scripts : List (Nat × String)
  kvData : List (Nat × String)
  configs : List (Nat × TriggerConfig)
  nextId : Nat
deriving DecidableEq, Repr

/-- `spell_storage.register_spell`: idempotent insert of the spell id into
the worker's spell set. -/
def SpellState.registerSpell (st : SpellState) (w id : Nat) : SpellState :=
  if (w, id) ∈ st.registry then st
  else { st with registry := (w, id) :: st.registry }

/-- `spell_storage.unregister_spell`: idempotent removal; removing a
non-member is a no-op. -/
def SpellState.unregisterSpell (st : SpellState) (w id : Nat) : SpellState :=
  { st with registry := st.registry.filter (fun p => !(p == (w, id))) }

/-- `services.create_service` (successful case): instantiate a fresh
service owned by `owner`; the fresh id is `st.nextId`. -/
def SpellState.createService (st : SpellState) (owner : Nat) : SpellState :=
  { st with services := (st.nextId, owner) :: st.services, nextId := st.nextId + 1 }

/-- `services.remove_service` (successful case): destroy the worker's
instance with the given id. -/
def SpellState.removeService (st : SpellState) (w id : Nat) : SpellState :=
  { st with services := st.services.filter (fun p => !(p == (id, w))) }

/-- Successful event-bus `subscribe`: record the live subscription. -/
def SpellState.addSubscription (st : SpellState) (id : Nat) : SpellState :=
  if id ∈ st.subscribed then st
  else { st with subscribed := id :: st.subscribed }

/-- Successful event-bus `unsubscribe`: drop all trigger bindings. -/
def SpellState.removeSubscription (st : SpellState) (id : Nat) : SpellState :=
  { st with subscribed := st.subscribed.filter (fun x => !(x == id)) }

/-- Successful `set_script_source_to_file` call: persist the script. -/
def SpellState.setScript (st : SpellState) (id : Nat) (s : String) : SpellState :=
  { st with scripts := (id, s) :: st.scripts }

/-- Successful `set_json_fields` call: persist the key/value data. -/
def SpellState.setData (st : SpellState) (id : Nat) (d : String) : SpellState :=
  { st with kvData := (id, d) :: st.kvData }

/-- Successful `set_trigger_config` call: persist the raw user config. -/
def SpellState.setConfig (st : SpellState) (id : Nat) (c : TriggerConfig) : SpellState :=
  { st with configs := (id, c) :: st.configs }

/-- `spell_list` / `spell_storage.get_registered_spells` scoped to one
worker: the spell ids registered for that worker. -/
def SpellState.listSpells (st : SpellState) (w : Nat) : List Nat :=
  (st.registry.filter (fun p => p.1 == w)).map (fun p => p.2)

/-- `remove_spell`: unsubscribe first (aborting the whole operation on
failure), then unregister from storage, then remove the service
(propagating its failure). -/
def remove_spell (env : Env) (st : SpellState) (spell_id worker_id : Nat) :
    Except SpellError Unit × SpellState :=
  if !env.unsubscribe_ok spell_id then
    (Except.error (SpellError.removeUnsubscribeError spell_id), st)
  else
    let st1 := st.removeSubscription spell_id
    let st2 := st1.unregisterSpell worker_id spell_id
    if env.remove_service_ok spell_id then
      (Except.ok (), st2.removeService worker_id spell_id)
    else
      (Except.error (SpellError.removeServiceError spell_id), st2)

/-- `install_spell`: normalize the user config, create the service,
register it, persist script / init data / raw user config via three
bounded calls (each failure surfaced as a wrapped `callError` with no
compensation), then, when a resolved config is present, subscribe —
compensating by unregister and remove-service on subscribe failure. -/
def install_spell (env : Env) (st : SpellState) (worker_id ttl : Nat)
    (user_config : TriggerConfig) (script : String) (init_data : String) :
    Except SpellError Nat × SpellState :=
  match from_user_config user_config with
  | .error e => (Except.error e, st)
  | .ok config =>
    if !env.create_ok then (Except.error SpellError.createServiceError, st)
    else
      let spell_id := st.nextId
      let st1 := st.createService worker_id
      let st2 := st1.registerSpell worker_id spell_id
      if !env.call_ok spell_id "set_script_source_to_file" then
        (Except.error (SpellError.callError spell_id "set_script_source_to_file"), st2)
      else
        let st3 := st2.setScript spell_id script
        if !env.call_ok spell_id "set_json_fields" then
          (Except.error (SpellError.callError spell_id "set_json_fields"), st3)
        else
          let st4 := st3.setData spell_id init_data
          if !env.call_ok spell_id "set_trigger_config" then
            (Except.error (SpellError.callError spell_id "set_trigger_config"), st4)
          else
            let st5 := st4.setConfig spell_id user_config
            match config with
            | some _ =>
              if env.subscribe_ok spell_id then
                (Except.ok spell_id, st5.addSubscription spell_id)
              else
                let st6 := st5.unregisterSpell worker_id spell_id
                if env.remove_service_ok spell_id then
                  (Except.error (SpellError.installSubscribeError spell_id),
                    st6.removeService worker_id spell_id)
                else
                  (Except.error (SpellError.removeServiceError spell_id), st6)
            | none => (Except.ok spell_id, st5)

/-- The `SpellInfo` record returned by `get_spell_info`. -/
structure SpellInfo where
  script : String
  trigger_config : TriggerConfig
deriving DecidableEq, Repr

/-- `get_spell_info`: read the persisted trigger config, then the script
source, each via a bounded call whose failure is surfaced. -/
def get_spell_info (env : Env) (st : SpellState) (worker_id ttl spell_id : Nat) :
    Except SpellError SpellInfo :=
  if !env.call_ok spell_id "get_trigger_config" then
    Except.error (SpellError.callError spell_id "get_trigger_config")
  else
    let trigger_config := ((st.configs.lookup spell_id).getD ⟨[]⟩)
    if !env.call_ok spell_id "get_script_source_from_file" then
      Except.error (SpellError.callError spell_id "get_script_source_from_file")
    else
      Except.ok ⟨(st.scripts.lookup spell_id).getD "", trigger_config⟩

/-- `spell_install` builtin: root-scope check (host target requires a
management caller), then creator lookup, then the three-role check, then
`install_spell`. -/
def spell_install (env : Env) (km : KeyManager) (st : SpellState)
    (init_peer_id host_id ttl : Nat) (script init_data : String)
    (user_config : TriggerConfig) : Except SpellError Nat × SpellState :=
  let is_management := km.is_management init_peer_id
  if km.is_host host_id && !is_management then
    (Except.error SpellError.rootScopePermissionError, st)
  else
    let worker_id := host_id
    match km.worker_creator host_id with
    | none => (Except.error (SpellError.unknownWorker host_id), st)
    | some worker_creator =>
      let is_worker := init_peer_id == worker_id
      let is_worker_creator := init_peer_id == worker_creator
      if !is_management && !is_worker && !is_worker_creator then
        (Except.error (SpellError.installPermissionError worker_id worker_creator init_peer_id),
          st)
      else
        install_spell env st worker_id ttl user_config script init_data

/-- `spell_remove` builtin: creator lookup, three-role check, alias
resolution via `to_service_id`, then `remove_spell`. -/
def spell_remove (env : Env) (km : KeyManager) (st : SpellState)
    (init_peer_id host_id : Nat) (spell_id : Nat) :
    Except SpellError Unit × SpellState :=
  let worker_id := host_id
  match km.worker_creator worker_id with
  | none => (Except.error (SpellError.unknownWorker worker_id), st)
  | some worker_creator =>
    let is_worker_creator := init_peer_id == worker_creator
    let is_worker := init_peer_id == worker_id
    let is_management := km.is_management init_peer_id
    if !is_worker_creator && !is_worker && !is_management then
      (Except.error (SpellError.removePermissionError worker_id worker_creator init_peer_id),
        st)
    else
      match env.to_service_id spell_id with
      | none => (Except.error (SpellError.serviceNotFound spell_id), st)
      | some sid => remove_spell env st sid worker_id

/-- `spell_update_config` builtin: creator lookup, three-role check, alias
resolution, normalization of the new config, persistence of the raw new
config via a bounded call, then always unsubscribe and, when a resolved
config is present, subscribe; either event-bus failure is reported as the
update-triggers error without rolling the persisted config back. -/
def spell_update_config (env : Env) (km : KeyManager) (st : SpellState)
    (init_peer_id host_id ttl : Nat) (spell_id_or_alias : Nat)
    (user_config : TriggerConfig) : Except SpellError Unit × SpellState :=
  let worker_id := host_id
  match km.worker_creator worker_id with
  | none => (Except.error (SpellError.unknownWorker worker_id), st)
  | some worker_creator =>
    let is_worker_creator := init_peer_id == worker_creator
    let is_worker := init_peer_id == worker_id
    let is_management := km.is_management init_peer_id
    if !is_worker_creator && !is_worker && !is_management then
      (Except.error (SpellError.updatePermissionError worker_id worker_creator init_peer_id),
        st)
    else
      match env.to_service_id spell_id_or_alias with
      | none => (Except.error (SpellError.serviceNotFound spell_id_or_alias), st)
      | some spell_id =>
        match from_user_config user_config with
        | .error e => (Except.error e, st)
        | .ok config =>
          if !env.call_ok spell_id "set_trigger_config" then
            (Except.error (SpellError.callError spell_id "set_trigger_config"), st)
          else
            let st1 := st.setConfig spell_id user_config
            if !env.unsubscribe_ok spell_id then
              (Except.error (SpellError.updateTriggersError spell_id), st1)
            else
              let st2 := st1.removeSubscription spell_id
              match config with
              | some _ =>
                if env.subscribe_ok spell_id then
                  (Except.ok (), st2.addSubscription spell_id)
                else
                  (Except.error (SpellError.updateTriggersError spell_id), st2)
              | none => (Except.ok (), st2)

/-- The registry/service invariant of the spec: a spell id is registered
for worker W exactly when a service instance with that id owned by W
exists. -/
def invariantHolds (st : SpellState) : Prop :=
  (∀ p ∈ st.registry, (p.2, p.1) ∈ st.services) ∧
  (∀ s ∈ st.services, (s.2, s.1) ∈ st.registry)

instance (st : SpellState) : Decidable (invariantHolds st) := by
  unfold invariantHolds
  exact instDecidableAnd

end SpellBuiltins

namespace SpellBuiltins

/-! ## Helper lemmas -/

theorem from_user_config_error_eq (C : TriggerConfig) (e : SpellError)
    (h : from_user_config C = .error e) : e = SpellError.validationError := by
  unfold from_user_config at h
  split at h
  · split at h <;> simp_all
  · simp_all

theorem install_spell_no_root_scope_error (env : Env) (st : SpellState)
    (w ttl : Nat) (C : TriggerConfig) (s d : String) :
    (install_spell env st w ttl C s d).1 ≠ Except.error SpellError.rootScopePermissionError := by
  intro h
  cases hcfg : from_user_config C with
  | error e =>
    have he := from_user_config_error_eq _ _ hcfg
    subst he
    simp [install_spell, hcfg] at h
  | ok cfg =>
    cases hb0 : env.create_ok <;>
    cases hb1 : env.call_ok st.nextId "set_script_source_to_file" <;>
    cases hb2 : env.call_ok st.nextId "set_json_fields" <;>
    cases hb3 : env.call_ok st.nextId "set_trigger_config" <;>
    cases hb4 : env.subscribe_ok st.nextId <;>
    cases hb5 : env.remove_service_ok st.nextId <;>
    cases cfg <;>
    simp [install_spell, hcfg, hb0, hb1, hb2, hb3, hb4, hb5] at h

/-! ## Claim theorems -/

/-- C3: for a remove call on an installed spell, when the unsubscribe step
fails, `remove_spell` returns the unsubscribe error and performs no further
step: the state is unchanged, so the spell id is still registered for the
worker and its service instance still exists. -/
theorem remove_unsubscribe_failure_aborts (env : Env) (st : SpellState)
    (sid w : Nat)
    (hfail : env.unsubscribe_ok sid = false)
    (hreg : (w, sid) ∈ st.registry) (hsvc : (sid, w) ∈ st.services) :
    (remove_spell env st sid w).1 = Except.error (SpellError.removeUnsubscribeError sid) ∧
    (remove_spell env st sid w).2 = st ∧
    (w, sid) ∈ (remove_spell env st sid w).2.registry ∧
    (sid, w) ∈ (remove_spell env st sid w).2.services := by
  simp [remove_spell, hfail, hreg, hsvc]

def exC3env : Env :=
  ⟨true, fun _ _ => true, fun _ => true, fun _ => false, fun _ => true, fun a => some a⟩

def exC3st : SpellState := ⟨[(5, 1)], [(1, 5)], [1], [], [], [], 2⟩

theorem remove_unsubscribe_failure_aborts_witness :
    (remove_spell exC3env exC3st 1 5).1 = Except.error (SpellError.removeUnsubscribeError 1) ∧
    (remove_spell exC3env exC3st 1 5).2 = exC3st ∧
    (5, 1) ∈ (remove_spell exC3env exC3st 1 5).2.registry ∧
    (1, 5) ∈ (remove_spell exC3env exC3st 1 5).2.services :=
  remove_unsubscribe_failure_aborts exC3env exC3st 1 5 rfl (by decide) (by decide)

/-- C8: when the target worker is the host/root identity, an install by a
non-management caller is rejected with the root-scope `PermissionError` and
the state is unchanged, while an install by the management identity is
never blocked by the root-scope restriction. -/
theorem root_scope_install_policy (env : Env) (km : KeyManager) (st : SpellState)
    (ipA host_id ttl : Nat) (s d : String) (C : TriggerConfig)
    (hhost : km.is_host host_id = true)
    (hA : km.is_management ipA = false) :
    spell_install env km st ipA host_id ttl s d C =
      (Except.error SpellError.rootScopePermissionError, st) ∧
    (spell_install env km st km.management host_id ttl s d C).1 ≠
      Except.error SpellError.rootScopePermissionError := by
  constructor
  · simp [spell_install, hhost, hA]
  · have hm : km.is_management km.management = true := by
      simp [KeyManager.is_management]
    cases hcr : km.worker_creator host_id with
    | none => simp [spell_install, hhost, hm, hcr]
    | some creator =>
      simp [spell_install, hhost, hm, hcr]
      exact install_spell_no_root_scope_error env st host_id ttl C s d

def exC8env : Env :=
  ⟨true, fun _ _ => true, fun _ => true, fun _ => true, fun _ => true, fun a => some a⟩

def exC8km : KeyManager := ⟨1, 9, fun w => if w == 9 then some 1 else none⟩

def exC8st : SpellState := ⟨[], [], [], [], [], [], 0⟩

theorem root_scope_install_policy_witness :
    spell_install exC8env exC8km exC8st 4 9 100 "s" "d" ⟨[]⟩ =
      (Except.error SpellError.rootScopePermissionError, exC8st) ∧
    (spell_install exC8env exC8km exC8st exC8km.management 9 100 "s" "d" ⟨[]⟩).1 ≠
      Except.error SpellError.rootScopePermissionError :=
  root_scope_install_policy exC8env exC8km exC8st 4 9 100 "s" "d" ⟨[]⟩ rfl rfl

/-- C1: a caller that is neither the management identity, nor the target
worker itself, nor the target worker's creator gets a `PermissionError`
from each of `spell_install`, `spell_remove` and `spell_update_config`,
with the state (registry, services, subscriptions, persisted fields)
unchanged. -/
theorem spell_mutations_permission_denied_unchanged
    (env : Env) (km : KeyManager) (st : SpellState)
    (ip host_id ttl sid creator : Nat) (s d : String) (C : TriggerConfig)
    (hcr : km.worker_creator host_id = some creator)
    (hnm : km.is_management ip = false)
    (hnw : ip ≠ host_id) (hnc : ip ≠ creator) :
    (isPermissionFailure (spell_install env km st ip host_id ttl s d C).1 = true ∧
      (spell_install env km st ip host_id ttl s d C).2 = st) ∧
    (isPermissionFailure (spell_remove env km st ip host_id sid).1 = true ∧
      (spell_remove env km st ip host_id sid).2 = st) ∧
    (isPermissionFailure (spell_update_config env km st ip host_id ttl sid C).1 = true ∧
      (spell_update_config env km st ip host_id ttl sid C).2 = st) := by
  have hbw : (ip == host_id) = false := by simp [hnw]
  have hbc : (ip == creator) = false := by simp [hnc]
  refine ⟨?_, ?_, ?_⟩
  · cases hh : km.is_host host_id with
    | true =>
      simp [spell_install, hh, hnm, isPermissionFailure, SpellError.isPermissionError]
    | false =>
      simp [spell_install, hh, hnm, hcr, hbw, hbc, isPermissionFailure,
        SpellError.isPermissionError]
  · simp [spell_remove, hcr, hnm, hbw, hbc, isPermissionFailure,
      SpellError.isPermissionError]
  · simp [spell_update_config, hcr, hnm, hbw, hbc, isPermissionFailure,
      SpellError.isPermissionError]

def exC1env : Env :=
  ⟨true, fun _ _ => true, fun _ => true, fun _ => true, fun _ => true, fun a => some a⟩

def exC1km : KeyManager := ⟨1, 9, fun w => if w == 5 then some 6 else none⟩

def exC1st : SpellState := ⟨[(5, 0)], [(0, 5)], [0], [], [], [], 1⟩

theorem spell_mutations_permission_denied_unchanged_witness :
    (isPermissionFailure (spell_install exC1env exC1km exC1st 2 5 100 "s" "d" ⟨[]⟩).1 = true ∧
      (spell_install exC1env exC1km exC1st 2 5 100 "s" "d" ⟨[]⟩).2 = exC1st) ∧
    (isPermissionFailure (spell_remove exC1env exC1km exC1st 2 5 0).1 = true ∧
      (spell_remove exC1env exC1km exC1st 2 5 0).2 = exC1st) ∧
    (isPermissionFailure (spell_update_config exC1env exC1km exC1st 2 5 100 0 ⟨[]⟩).1 = true ∧
      (spell_update_config exC1env exC1km exC1st 2 5 100 0 ⟨[]⟩).2 = exC1st) :=
  spell_mutations_permission_denied_unchanged exC1env exC1km exC1st 2 5 100 0 6 "s" "d" ⟨[]⟩
    rfl rfl (by decide) (by decide)

def exC4env : Env :=
  ⟨true, fun _ _ => true, fun _ => true, fun _ => true, fun _ => true, fun a => some a⟩

def exC4km : KeyManager := ⟨1, 9, fun w => if w == 5 then some 6 else none⟩

def exC4st : SpellState := ⟨[], [], [], [], [], [], 0⟩

def exC4cfg : TriggerConfig := ⟨[.clock 10 (some 5) (some 3)]⟩

/-- C4 counterexample: the config `exC4cfg` is malformed (its normalization
fails with `ValidationError`), yet an install by the unauthorized caller 2
returns the role-check `PermissionError`, not a `ValidationError`:
in `spell_install`, the authorization checks run before `install_spell`
performs the normalization, so the result is not `ValidationError`
"regardless of the caller's identity". -/
theorem install_validation_after_authorization_cex :
    from_user_config exC4cfg = Except.error SpellError.validationError ∧
    spell_install exC4env exC4km exC4st 2 5 100 "s" "d" exC4cfg =
      (Except.error (SpellError.installPermissionError 5 6 2), exC4st) :=
  ⟨rfl, rfl⟩

/-- C4 amended: for an install whose caller passes the authorization checks
(root-scope check, creator lookup, role check), a malformed user trigger
config aborts the operation with `ValidationError` before any state is
touched; but normalization runs after authorization, not before it. -/
theorem install_malformed_config_validation_error
    (env : Env) (km : KeyManager) (st : SpellState)
    (ip host_id ttl creator : Nat) (s d : String) (C : TriggerConfig)
    (hcr : km.worker_creator host_id = some creator)
    (hhost : km.is_host host_id = false ∨ km.is_management ip = true)
    (hauth : km.is_management ip = true ∨ ip = host_id ∨ ip = creator)
    (hcfg : from_user_config C = Except.error SpellError.validationError) :
    spell_install env km st ip host_id ttl s d C =
      (Except.error SpellError.validationError, st) := by
  have hroot : (km.is_host host_id && !km.is_management ip) = false := by
    rcases hhost with hh | hm
    · simp [hh]
    · simp [hm]
  have hrole : (!km.is_management ip && !(ip == host_id) && !(ip == creator)) = false := by
    rcases hauth with hm | hw | hc
    · simp [hm]
    · simp [hw]
    · simp [hc]
  simp [spell_install, hroot, hcr, hrole, install_spell, hcfg]

theorem install_malformed_config_validation_error_witness :
    spell_install exC4env exC4km exC4st 1 5 100 "s" "d" exC4cfg =
      (Except.error SpellError.validationError, exC4st) :=
  install_malformed_config_validation_error exC4env exC4km exC4st 1 5 100 6 "s" "d" exC4cfg
    rfl (Or.inl rfl) (Or.inl rfl) rfl

theorem registerSpell_mem_registry (st : SpellState) (w id : Nat) :
    (w, id) ∈ (st.registerSpell w id).registry := by
  unfold SpellState.registerSpell
  split
  next hmem => exact hmem
  next hmem => exact List.mem_cons_self _ _

theorem registerSpell_services (st : SpellState) (w id : Nat) :
    (st.registerSpell w id).services = st.services := by
  unfold SpellState.registerSpell
  split <;> rfl

theorem removeService_not_mem (st : SpellState) (w id : Nat) :
    (id, w) ∉ (st.removeService w id).services := by
  simp [SpellState.removeService, List.mem_filter]

theorem unregisterSpell_not_listed (st : SpellState) (w id : Nat) :
    id ∉ (st.unregisterSpell w id).listSpells w := by
  simp [SpellState.unregisterSpell, SpellState.listSpells, List.mem_map, List.mem_filter]

/-- C5: whenever `install_spell` fails with a wrapped `callError` (the
persistence phase), no compensation is performed: the spell id stays
registered for the worker, its service instance still exists, and the
error carries the spell id together with one of the three persistence
operation names. -/
theorem install_persistence_failure_no_compensation
    (env : Env) (st st2 : SpellState) (w ttl sid : Nat) (C : TriggerConfig)
    (s d op : String)
    (h : install_spell env st w ttl C s d = (Except.error (SpellError.callError sid op), st2)) :
    (w, sid) ∈ st2.registry ∧ (sid, w) ∈ st2.services ∧
    (op = "set_script_source_to_file" ∨ op = "set_json_fields" ∨
      op = "set_trigger_config") := by
  cases hcfg : from_user_config C with
  | error e =>
    have he := from_user_config_error_eq _ _ hcfg
    subst he
    simp [install_spell, hcfg] at h
  | ok cfg =>
    cases hb0 : env.create_ok <;>
    cases hb1 : env.call_ok st.nextId "set_script_source_to_file" <;>
    cases hb2 : env.call_ok st.nextId "set_json_fields" <;>
    cases hb3 : env.call_ok st.nextId "set_trigger_config" <;>
    cases hb4 : env.subscribe_ok st.nextId <;>
    cases hb5 : env.remove_service_ok st.nextId <;>
    cases cfg <;>
    simp [install_spell, hcfg, hb0, hb1, hb2, hb3, hb4, hb5] at h
    all_goals (
      obtain ⟨⟨hsid, hop⟩, hst⟩ := h
      subst hsid
      subst hop
      subst hst
      refine ⟨?_, ?_, by simp⟩
      · exact registerSpell_mem_registry _ _ _
      · simp only [SpellState.setData, SpellState.setScript, registerSpell_services,
          SpellState.createService]
        exact List.mem_cons_self _ _)

def exC5env : Env :=
  ⟨true, fun _ f => !(f == "set_json_fields"), fun _ => true, fun _ => true,
    fun _ => true, fun a => some a⟩

def exC5st : SpellState := ⟨[], [], [], [], [], [], 0⟩

def exC5cfg : TriggerConfig := ⟨[.event "x"]⟩

def exC5res : SpellState := (install_spell exC5env exC5st 5 100 exC5cfg "s" "d").2

theorem install_persistence_failure_no_compensation_witness :
    (5, 0) ∈ exC5res.registry ∧ (0, 5) ∈ exC5res.services ∧
    ((("set_json_fields" : String)) = "set_script_source_to_file" ∨
      (("set_json_fields" : String)) = "set_json_fields" ∨
      (("set_json_fields" : String)) = "set_trigger_config") :=
  install_persistence_failure_no_compensation exC5env exC5st exC5res 5 100 0 exC5cfg
    "s" "d" "set_json_fields" rfl

def exC2env : Env :=
  ⟨true, fun _ _ => true, fun _ => false, fun _ => true, fun _ => false, fun a => some a⟩

def exC2st : SpellState := ⟨[], [], [], [], [], [], 0⟩

def exC2cfg : TriggerConfig := ⟨[.event "x"]⟩

/-- C2 counterexample: the user config resolves to a present trigger set
and the subscribe call fails, but the compensating `remove_service` call
also fails: `install_spell` returns the remove-service error instead of
the wrapped `SubscriptionError`, and the backing service instance still
exists afterwards — so install is not atomic with respect to subscription
failure as stated. -/
theorem install_subscribe_failure_not_atomic_cex :
    from_user_config exC2cfg = Except.ok (some ⟨[.event "x"]⟩) ∧
    exC2env.subscribe_ok 0 = false ∧
    (install_spell exC2env exC2st 5 100 exC2cfg "s" "d").1 =
      Except.error (SpellError.removeServiceError 0) ∧
    (0, 5) ∈ (install_spell exC2env exC2st 5 100 exC2cfg "s" "d").2.services :=
  ⟨rfl, rfl, rfl, by decide⟩

/-- C2 amended: when the user config resolves to a present trigger set,
the subscribe call fails, and the compensating `remove_service` call
succeeds, `install_spell` returns the wrapped `SubscriptionError` and the
spell is not observable afterwards: its id is absent from the worker's
registry and its backing service instance no longer exists.  (When the
compensating `remove_service` itself fails, its error is returned instead
and the service instance remains.) -/
theorem install_subscribe_failure_compensated
    (env : Env) (st : SpellState) (w ttl : Nat) (C : TriggerConfig) (s d : String)
    (rc : ResolvedTriggerConfig)
    (hcfg : from_user_config C = Except.ok (some rc))
    (hcreate : env.create_ok = true)
    (h1 : env.call_ok st.nextId "set_script_source_to_file" = true)
    (h2 : env.call_ok st.nextId "set_json_fields" = true)
    (h3 : env.call_ok st.nextId "set_trigger_config" = true)
    (hsub : env.subscribe_ok st.nextId = false)
    (hrm : env.remove_service_ok st.nextId = true) :
    (install_spell env st w ttl C s d).1 =
      Except.error (SpellError.installSubscribeError st.nextId) ∧
    st.nextId ∉ (install_spell env st w ttl C s d).2.listSpells w ∧
    (st.nextId, w) ∉ (install_spell env st w ttl C s d).2.services := by
  have hres : install_spell env st w ttl C s d =
      (Except.error (SpellError.installSubscribeError st.nextId),
        ((((((st.createService w).registerSpell w st.nextId).setScript st.nextId
            s).setData st.nextId d).setConfig st.nextId C).unregisterSpell
            w st.nextId).removeService w st.nextId) := by
    simp [install_spell, hcfg, hcreate, h1, h2, h3, hsub, hrm]
  rw [hres]
  refine ⟨rfl, ?_, ?_⟩
  · exact unregisterSpell_not_listed _ w st.nextId
  · exact removeService_not_mem _ w st.nextId

def exC2benv : Env :=
  ⟨true, fun _ _ => true, fun _ => false, fun _ => true, fun _ => true, fun a => some a⟩

theorem install_subscribe_failure_compensated_witness :
    (install_spell exC2benv exC2st 5 100 exC2cfg "s" "d").1 =
      Except.error (SpellError.installSubscribeError exC2st.nextId) ∧
    exC2st.nextId ∉ (install_spell exC2benv exC2st 5 100 exC2cfg "s" "d").2.listSpells 5 ∧
    (exC2st.nextId, 5) ∉ (install_spell exC2benv exC2st 5 100 exC2cfg "s" "d").2.services :=
  install_subscribe_failure_compensated exC2benv exC2st 5 100 exC2cfg "s" "d"
    ⟨[.event "x"]⟩ rfl rfl rfl rfl rfl rfl rfl

/-- C6: when an authorized `update_config` persists the new config but the
subsequent unsubscribe — or, for a present resolved config, the subsequent
subscribe — fails, the operation returns the update-triggers
`SubscriptionError` and the persisted configuration still holds the new
value (no rollback). -/
theorem update_config_subscription_failure_keeps_persisted
    (env : Env) (km : KeyManager) (st : SpellState)
    (ip host_id ttl aliasId sid creator : Nat) (C : TriggerConfig)
    (cfgOpt : Option ResolvedTriggerConfig)
    (hcr : km.worker_creator host_id = some creator)
    (hauth : km.is_management ip = true ∨ ip = host_id ∨ ip = creator)
    (hsid : env.to_service_id aliasId = some sid)
    (hcfg : from_user_config C = Except.ok cfgOpt)
    (hpersist : env.call_ok sid "set_trigger_config" = true)
    (hfail : env.unsubscribe_ok sid = false ∨
      (env.unsubscribe_ok sid = true ∧ (∃ rc, cfgOpt = some rc) ∧
        env.subscribe_ok sid = false)) :
    (spell_update_config env km st ip host_id ttl aliasId C).1 =
      Except.error (SpellError.updateTriggersError sid) ∧
    (spell_update_config env km st ip host_id ttl aliasId C).2.configs.lookup sid =
      some C := by
  have hrole : ¬((¬ip = creator ∧ ¬ip = host_id) ∧ km.is_management ip = false) := by
    rcases hauth with hm | hw | hc
    · simp [hm]
    · simp [hw]
    · simp [hc]
  rcases hfail with hun | ⟨hun, ⟨rc, hrc⟩, hsubf⟩
  · simp [spell_update_config, hcr, hrole, hsid, hcfg, hpersist, hun,
      SpellState.setConfig, List.lookup]
  · subst hrc
    simp [spell_update_config, hcr, hrole, hsid, hcfg, hpersist, hun, hsubf,
      SpellState.setConfig, SpellState.removeSubscription, List.lookup]

def exC6env : Env :=
  ⟨true, fun _ _ => true, fun _ => true, fun _ => false, fun _ => true, fun a => some a⟩

def exC6km : KeyManager := ⟨1, 9, fun w => if w == 5 then some 6 else none⟩

def exC6st : SpellState := ⟨[(5, 1)], [(1, 5)], [1], [], [], [], 2⟩

theorem update_config_subscription_failure_keeps_persisted_witness :
    (spell_update_config exC6env exC6km exC6st 5 5 100 1 ⟨[]⟩).1 =
      Except.error (SpellError.updateTriggersError 1) ∧
    (spell_update_config exC6env exC6km exC6st 5 5 100 1 ⟨[]⟩).2.configs.lookup 1 =
      some ⟨[]⟩ :=
  update_config_subscription_failure_keeps_persisted exC6env exC6km exC6st 5 5 100 1 1 6
    ⟨[]⟩ none rfl (Or.inr (Or.inl rfl)) rfl rfl rfl (Or.inl rfl)

def exC10env : Env :=
  ⟨true, fun _ _ => true, fun _ => true, fun _ => true, fun _ => true, fun a => some a⟩

def exC10km : KeyManager := ⟨1, 9, fun _ => none⟩

def exC10st : SpellState := ⟨[], [], [], [], [], [], 0⟩

/-- C10 counterexample: the target worker is the host identity, its creator
cannot be resolved, and the caller is the worker itself (not management):
`spell_install` fails with the root-scope `PermissionError`, not with the
creator-lookup error — so for install the creator lookup is not performed
unconditionally before authorization. -/
theorem creator_lookup_order_install_cex :
    exC10km.worker_creator 9 = none ∧
    spell_install exC10env exC10km exC10st 9 9 100 "s" "d" ⟨[]⟩ =
      (Except.error SpellError.rootScopePermissionError, exC10st) :=
  ⟨rfl, rfl⟩

/-- C10 amended: when the target worker's creator cannot be resolved,
`spell_remove` and `spell_update_config` fail with the creator-lookup
error unconditionally before the role check — even for a management or
worker-itself caller — and `spell_install` does so as well provided the
root-scope check passes first (the target is not the host identity, or
the caller is the management identity). -/
theorem creator_lookup_precedes_role_check
    (env : Env) (km : KeyManager) (st : SpellState)
    (ip host_id ttl aliasId : Nat) (s d : String) (C : TriggerConfig)
    (hcn : km.worker_creator host_id = none)
    (hhost : km.is_host host_id = false ∨ km.is_management ip = true) :
    spell_remove env km st ip host_id aliasId =
      (Except.error (SpellError.unknownWorker host_id), st) ∧
    spell_update_config env km st ip host_id ttl aliasId C =
      (Except.error (SpellError.unknownWorker host_id), st) ∧
    spell_install env km st ip host_id ttl s d C =
      (Except.error (SpellError.unknownWorker host_id), st) := by
  refine ⟨?_, ?_, ?_⟩
  · simp [spell_remove, hcn]
  · simp [spell_update_config, hcn]
  · rcases hhost with hh | hm
    · simp [spell_install, hh, hcn]
    · simp [spell_install, hm, hcn]

theorem creator_lookup_precedes_role_check_witness :
    spell_remove exC10env exC10km exC10st 1 9 0 =
      (Except.error (SpellError.unknownWorker 9), exC10st) ∧
    spell_update_config exC10env exC10km exC10st 1 9 100 0 ⟨[]⟩ =
      (Except.error (SpellError.unknownWorker 9), exC10st) ∧
    spell_install exC10env exC10km exC10st 1 9 100 "s" "d" ⟨[]⟩ =
      (Except.error (SpellError.unknownWorker 9), exC10st) :=
  creator_lookup_precedes_role_check exC10env exC10km exC10st 1 9 100 0 "s" "d" ⟨[]⟩
    rfl (Or.inr rfl)

theorem addSubscription_registry (st : SpellState) (id : Nat) :
    (st.addSubscription id).registry = st.registry := by
  unfold SpellState.addSubscription
  split <;> rfl

theorem addSubscription_services (st : SpellState) (id : Nat) :
    (st.addSubscription id).services = st.services := by
  unfold SpellState.addSubscription
  split <;> rfl

theorem addSubscription_scripts (st : SpellState) (id : Nat) :
    (st.addSubscription id).scripts = st.scripts := by
  unfold SpellState.addSubscription
  split <;> rfl

theorem addSubscription_configs (st : SpellState) (id : Nat) :
    (st.addSubscription id).configs = st.configs := by
  unfold SpellState.addSubscription
  split <;> rfl

/-- C9: after a successful install, `get_spell_info` on the returned spell
id yields exactly the installed script text and the raw, pre-normalization
user trigger config (the persisted record is the user config, not the
resolved config). -/
theorem install_get_info_round_trip
    (env : Env) (st : SpellState) (w ttl : Nat) (C : TriggerConfig) (s d : String)
    (cfgOpt : Option ResolvedTriggerConfig)
    (hcfg : from_user_config C = Except.ok cfgOpt)
    (hcreate : env.create_ok = true)
    (h1 : env.call_ok st.nextId "set_script_source_to_file" = true)
    (h2 : env.call_ok st.nextId "set_json_fields" = true)
    (h3 : env.call_ok st.nextId "set_trigger_config" = true)
    (hsub : cfgOpt = none ∨ env.subscribe_ok st.nextId = true)
    (hg1 : env.call_ok st.nextId "get_trigger_config" = true)
    (hg2 : env.call_ok st.nextId "get_script_source_from_file" = true) :
    (install_spell env st w ttl C s d).1 = Except.ok st.nextId ∧
    get_spell_info env (install_spell env st w ttl C s d).2 w ttl st.nextId =
      Except.ok ⟨s, C⟩ := by
  cases cfgOpt with
  | none =>
    constructor
    · simp [install_spell, hcfg, hcreate, h1, h2, h3]
    · simp [install_spell, hcfg, hcreate, h1, h2, h3, get_spell_info, hg1, hg2,
        SpellState.setConfig, SpellState.setScript, SpellState.setData, List.lookup]
  | some rc =>
    have hs : env.subscribe_ok st.nextId = true := by
      rcases hsub with h | h
      · simp at h
      · exact h
    constructor
    · simp [install_spell, hcfg, hcreate, h1, h2, h3, hs]
    · simp [install_spell, hcfg, hcreate, h1, h2, h3, hs, get_spell_info, hg1, hg2,
        addSubscription_configs, addSubscription_scripts,
        SpellState.setConfig, SpellState.setScript, SpellState.setData, List.lookup]

def exC9env : Env :=
  ⟨true, fun _ _ => true, fun _ => true, fun _ => true, fun _ => true, fun a => some a⟩

def exC9st : SpellState := ⟨[], [], [], [], [], [], 0⟩

def exC9cfg : TriggerConfig := ⟨[.event "x"]⟩

theorem install_get_info_round_trip_witness :
    (install_spell exC9env exC9st 5 100 exC9cfg "echo 1" "{}").1 =
      Except.ok exC9st.nextId ∧
    get_spell_info exC9env (install_spell exC9env exC9st 5 100 exC9cfg "echo 1" "{}").2
      5 100 exC9st.nextId = Except.ok ⟨"echo 1", exC9cfg⟩ :=
  install_get_info_round_trip exC9env exC9st 5 100 exC9cfg "echo 1" "{}"
    (some ⟨[.event "x"]⟩) rfl rfl rfl rfl rfl (Or.inr rfl) rfl rfl

theorem invariantHolds_congr (st1 st2 : SpellState)
    (hreg : st2.registry = st1.registry) (hsvc : st2.services = st1.services)
    (h : invariantHolds st1) : invariantHolds st2 := by
  unfold invariantHolds at h ⊢
  rw [hreg, hsvc]
  exact h

theorem invariantHolds_install_core (st : SpellState) (w : Nat)
    (hinv : invariantHolds st) :
    invariantHolds ((st.createService w).registerSpell w st.nextId) := by
  obtain ⟨h1, h2⟩ := hinv
  unfold SpellState.registerSpell
  split
  next hmem =>
    refine ⟨?_, ?_⟩
    · intro p hp
      exact List.mem_cons_of_mem _ (h1 p hp)
    · intro q hq
      rcases List.mem_cons.mp hq with hq | hq
      · subst hq
        exact hmem
      · exact h2 q hq
  next hmem =>
    refine ⟨?_, ?_⟩
    · intro p hp
      rcases List.mem_cons.mp hp with hp | hp
      · subst hp
        exact List.mem_cons_self _ _
      · exact List.mem_cons_of_mem _ (h1 p hp)
    · intro q hq
      rcases List.mem_cons.mp hq with hq | hq
      · subst hq
        exact List.mem_cons_self _ _
      · exact List.mem_cons_of_mem _ (h2 q hq)

theorem invariantHolds_unregister_remove (st : SpellState) (w id : Nat)
    (hinv : invariantHolds st) :
    invariantHolds ((st.unregisterSpell w id).removeService w id) := by
  obtain ⟨h1, h2⟩ := hinv
  refine ⟨?_, ?_⟩
  · rintro ⟨pa, pb⟩ hp
    simp [SpellState.unregisterSpell, SpellState.removeService, List.mem_filter] at hp ⊢
    obtain ⟨hpl, hpne⟩ := hp
    refine ⟨h1 _ hpl, ?_⟩
    tauto
  · rintro ⟨qa, qb⟩ hq
    simp [SpellState.unregisterSpell, SpellState.removeService, List.mem_filter] at hq ⊢
    obtain ⟨hql, hqne⟩ := hq
    refine ⟨h2 _ hql, ?_⟩
    tauto

theorem spell_install_ok_elim
    (env : Env) (km : KeyManager) (st st2 : SpellState)
    (ip host_id ttl r : Nat) (s d : String) (C : TriggerConfig)
    (h : spell_install env km st ip host_id ttl s d C = (Except.ok r, st2)) :
    install_spell env st host_id ttl C s d = (Except.ok r, st2) := by
  unfold spell_install at h
  simp only [] at h
  repeat' split at h
  all_goals first
  | exact h
  | simp at h

theorem install_spell_ok_invariant
    (env : Env) (st st2 : SpellState) (w ttl r : Nat)
    (C : TriggerConfig) (s d : String)
    (hinv : invariantHolds st)
    (h : install_spell env st w ttl C s d = (Except.ok r, st2)) :
    invariantHolds st2 := by
  unfold install_spell at h
  simp only [] at h
  repeat' split at h
  all_goals simp at h
  all_goals (
    obtain ⟨hval, hst⟩ := h
    subst hst
    refine invariantHolds_congr _ _ ?_ ?_ (invariantHolds_install_core st w hinv)
    · first
      | rfl
      | simp [addSubscription_registry, SpellState.setConfig, SpellState.setData,
          SpellState.setScript]
    · first
      | rfl
      | simp [addSubscription_services, SpellState.setConfig, SpellState.setData,
          SpellState.setScript])

theorem remove_spell_ok_invariant
    (env : Env) (st st2 : SpellState) (sid w : Nat)
    (hinv : invariantHolds st)
    (h : remove_spell env st sid w = (Except.ok (), st2)) :
    invariantHolds st2 := by
  unfold remove_spell at h
  simp only [] at h
  repeat' split at h
  all_goals simp at h
  all_goals (
    subst h
    exact invariantHolds_unregister_remove _ w sid
      (invariantHolds_congr _ _ rfl rfl hinv))

theorem spell_remove_ok_invariant
    (env : Env) (km : KeyManager) (st st2 : SpellState)
    (ip host_id aliasId : Nat)
    (hinv : invariantHolds st)
    (h : spell_remove env km st ip host_id aliasId = (Except.ok (), st2)) :
    invariantHolds st2 := by
  unfold spell_remove at h
  simp only [] at h
  repeat' split at h
  all_goals first
  | exact remove_spell_ok_invariant env st st2 _ host_id hinv h
  | simp at h

theorem spell_update_config_ok_fields
    (env : Env) (km : KeyManager) (st st2 : SpellState)
    (ip host_id ttl aliasId : Nat) (C : TriggerConfig)
    (h : spell_update_config env km st ip host_id ttl aliasId C = (Except.ok (), st2)) :
    st2.registry = st.registry ∧ st2.services = st.services := by
  unfold spell_update_config at h
  simp only [] at h
  repeat' split at h
  all_goals simp at h
  all_goals (
    subst h
    constructor
    · first
      | rfl
      | simp [addSubscription_registry, SpellState.setConfig,
          SpellState.removeSubscription]
    · first
      | rfl
      | simp [addSubscription_services, SpellState.setConfig,
          SpellState.removeSubscription])

/-- C7 amended: the registry/service invariant — a spell id is registered
for worker W exactly when a service instance with that id owned by W
exists — is preserved by every lifecycle operation that completes
successfully.  (On failure paths where the `remove_service` call fails
after unregistration, the invariant can break: see the counterexample.) -/
theorem lifecycle_success_preserves_invariant
    (env : Env) (km : KeyManager) (st sti str stu : SpellState)
    (ip host_id ttl aliasId r : Nat) (s d : String) (C : TriggerConfig)
    (hinv : invariantHolds st)
    (hi : spell_install env km st ip host_id ttl s d C = (Except.ok r, sti))
    (hr : spell_remove env km st ip host_id aliasId = (Except.ok (), str))
    (hu : spell_update_config env km st ip host_id ttl aliasId C = (Except.ok (), stu)) :
    invariantHolds sti ∧ invariantHolds str ∧ invariantHolds stu := by
  refine ⟨?_, ?_, ?_⟩
  · exact install_spell_ok_invariant env st sti host_id ttl r C s d hinv
      (spell_install_ok_elim env km st sti ip host_id ttl r s d C hi)
  · exact spell_remove_ok_invariant env km st str ip host_id aliasId hinv hr
  · obtain ⟨hru, hsu⟩ := spell_update_config_ok_fields env km st stu ip host_id ttl
      aliasId C hu
    exact invariantHolds_congr st stu hru hsu hinv

def exC7env : Env :=
  ⟨true, fun _ _ => true, fun _ => true, fun _ => true, fun _ => false, fun a => some a⟩

def exC7km : KeyManager := ⟨1, 9, fun w => if w == 5 then some 6 else none⟩

def exC7st : SpellState := ⟨[(5, 1)], [(1, 5)], [1], [], [], [], 2⟩

/-- C7 counterexample: from a state satisfying the registry/service
invariant, a completed `spell_remove` call in which the final
`remove_service` step fails leaves the spell unregistered while its
service instance still exists — the invariant does not hold after every
completed lifecycle operation. -/
theorem registry_service_invariant_broken_cex :
    invariantHolds exC7st ∧
    ¬ invariantHolds (spell_remove exC7env exC7km exC7st 5 5 1).2 := by
  constructor
  · decide
  · decide

def exC7benv : Env :=
  ⟨true, fun _ _ => true, fun _ => true, fun _ => true, fun _ => true, fun a => some a⟩

def exC7sti : SpellState := (spell_install exC7benv exC7km exC7st 5 5 100 "s" "d" ⟨[]⟩).2

def exC7str : SpellState := (spell_remove exC7benv exC7km exC7st 5 5 1).2

def exC7stu : SpellState := (spell_update_config exC7benv exC7km exC7st 5 5 100 1 ⟨[]⟩).2

theorem lifecycle_success_preserves_invariant_witness :
    invariantHolds exC7sti ∧ invariantHolds exC7str ∧ invariantHolds exC7stu :=
  lifecycle_success_preserves_invariant exC7benv exC7km exC7st exC7sti exC7str exC7stu
    5 5 100 1 2 "s" "d" ⟨[]⟩ (by decide) rfl rfl rfl

end SpellBuiltins
